import Mathlib

/-!
Shallow embedding of the circuit-breaker state machine of
`src/sentinel/src/core/circuitbreaker/breaker/mod.rs`.

The Rust code keeps one `BreakerBase` per protected resource.  Its mutable pieces
are the lock-guarded `state : State` and the atomic `next_retry_timestamp_ms`.
Every operation here takes the breaker value and returns the updated breaker
together with the boolean the Rust function returns and the trace of listener
callbacks it fired.  The global listener registry `state_change_listeners()` is
passed in as the list of registered listeners (identified by their registration
index); a callback invocation is recorded as a pair of listener id and event.
Wall-clock reads (`utils::curr_time_millis()`) become an explicit `now` argument
on the operations that perform them.
-/

/-- States of the circuit breaker state machine (`enum State`). -/
inductive State where
  | Closed
  | HalfOpen
  | Open
deriving DecidableEq, Repr

/-- Default value of `State` (`impl Default for State`), which the Rust code
returns from `State::default()`. -/
def State.default : State := State.Closed

/-- Strategy selector of a circuit-breaker rule (`enum BreakerStrategy`);
the `Custom` payload is a `u8` code, carried here as a bounded natural. -/
inductive BreakerStrategy where
  | SlowRequestRatio
  | ErrorRatio
  | ErrorCount
  | Custom (code : Fin 256)
deriving DecidableEq, Repr

/-- Default value of `BreakerStrategy` (`impl Default for BreakerStrategy`). -/
def BreakerStrategy.default : BreakerStrategy := BreakerStrategy.SlowRequestRatio

/-- Modelled from the spec: the `Rule` record itself is defined outside the
provided source file (only `use super::*` brings it in scope), so its shape is
taken from the spec's interface list in section 6: resource name, strategy
selector, recovery timeout, window shape, threshold, minimum sample size and
slow-call latency bound.  The threshold is a count or ratio, carried as a
rational. -/
structure Rule where
  resource : String
  strategy : BreakerStrategy
  retry_timeout_ms : Nat
  stat_interval_ms : Nat
  stat_bucket_count : Nat
  threshold : Rat
  min_request_amount : Nat
  max_allowed_rt_ms : Nat
deriving DecidableEq, Repr

/-- Modelled from the spec: a rule constructed without explicit field values
takes every field's default, the strategy selector defaulting through
`BreakerStrategy.default` (derive-style `Default` semantics). -/
def Rule.default : Rule :=
  { resource := ""
    strategy := BreakerStrategy.default
    retry_timeout_ms := 0
    stat_interval_ms := 0
    stat_bucket_count := 0
    threshold := 0
    min_request_amount := 0
    max_allowed_rt_ms := 0 }

/-- Snapshot value carried to `on_transform_to_open` listeners.  In the source
it is a floating-point diagnostic value (the exit hook passes the literal
`1.0` via `Arc::new(1.0)`); it is carried opaquely, so a rational represents it
exactly. -/
abbrev Snapshot := Rat

/-- The fixed sentinel snapshot `Arc::new(1.0)` that the exit hook passes to
listeners when rolling back from half-open to open. -/
def sentinel_snapshot : Snapshot := 1

/-- One listener callback invocation, mirroring the three methods of the
`StateChangeListener` trait: the callback that was called and its arguments. -/
inductive Event where
  | on_transform_to_closed (prev : State) (rule : Rule)
  | on_transform_to_open (prev : State) (rule : Rule) (snapshot : Option Snapshot)
  | on_transform_to_half_open (prev : State) (rule : Rule)
deriving DecidableEq, Repr

/-- The caller's entry context (`Rc<RefCell<EntryContext>>`).  The breaker code
reads exactly two things from it: whether an entry is attached (`ctx.entry()`,
an `Option`; its payload is irrelevant to the breaker, so it is a unit), and —
inside the exit hook, at hook-execution time — whether the call was blocked
(`ctx.is_blocked()`). -/
structure EntryContext where
  entry : Option Unit
  is_blocked : Bool
deriving DecidableEq, Repr

/-- Common fields of a circuit breaker (`struct BreakerBase`): the shared rule,
the recovery timeout `retry_timeout_ms : u32`, the atomic
`next_retry_timestamp_ms : AtomicU64` and the lock-guarded `state`.  Timestamps
are naturals; the `u64` arithmetic on them cannot wrap for representable
times. -/
structure BreakerBase where
  rule : Rule
  retry_timeout_ms : Nat
  next_retry_timestamp_ms : Nat
  state : State
deriving DecidableEq, Repr

/-- `BreakerBase::current_state`: reads the state under the lock. -/
def current_state (b : BreakerBase) : State := b.state

/-- `BreakerBase::retry_timeout_arrived`: `curr_time_millis() >=
next_retry_timestamp_ms`. -/
def retry_timeout_arrived (now : Nat) (b : BreakerBase) : Bool :=
  decide (b.next_retry_timestamp_ms ≤ now)

/-- `BreakerBase::update_next_retry_timestamp`: stores `curr_time_millis() +
retry_timeout_ms`. -/
def update_next_retry_timestamp (now : Nat) (b : BreakerBase) : BreakerBase :=
  { b with next_retry_timestamp_ms := now + b.retry_timeout_ms }

/-- Result of a guarded transition: the returned boolean, the breaker after the
call, and the listener callbacks fired during the call, in order. -/
structure TransitionResult where
  ret : Bool
  breaker : BreakerBase
  events : List (Nat × Event)
deriving DecidableEq, Repr

/-- `BreakerBase::from_closed_to_open`: under the lock, if the state is
`Closed`, set it to `Open`, arm the retry timestamp, notify every registered
listener with `on_transform_to_open(Closed, rule, Some(snapshot))` and return
`true`; otherwise do nothing and return `false`. -/
def from_closed_to_open (listeners : List Nat) (now : Nat) (snapshot : Snapshot)
    (b : BreakerBase) : TransitionResult :=
  if b.state = State.Closed then
    { ret := true
      breaker := update_next_retry_timestamp now { b with state := State.Open }
      events := listeners.map
        (fun l => (l, Event.on_transform_to_open State.Closed b.rule (some snapshot))) }
  else
    { ret := false, breaker := b, events := [] }

/-- `BreakerBase::from_half_open_to_open`: under the lock, if the state is
`HalfOpen`, set it to `Open`, arm the retry timestamp, notify every registered
listener with `on_transform_to_open(HalfOpen, rule, Some(snapshot))` and return
`true`; otherwise do nothing and return `false`. -/
def from_half_open_to_open (listeners : List Nat) (now : Nat) (snapshot : Snapshot)
    (b : BreakerBase) : TransitionResult :=
  if b.state = State.HalfOpen then
    { ret := true
      breaker := update_next_retry_timestamp now { b with state := State.Open }
      events := listeners.map
        (fun l => (l, Event.on_transform_to_open State.HalfOpen b.rule (some snapshot))) }
  else
    { ret := false, breaker := b, events := [] }

/-- `BreakerBase::from_half_open_to_closed`: under the lock, if the state is
`HalfOpen`, set it to `Closed`, notify every registered listener with
`on_transform_to_closed(HalfOpen, rule)` and return `true`; otherwise do
nothing and return `false`.  The retry timestamp is not touched. -/
def from_half_open_to_closed (listeners : List Nat) (b : BreakerBase) :
    TransitionResult :=
  if b.state = State.HalfOpen then
    { ret := true
      breaker := { b with state := State.Closed }
      events := listeners.map
        (fun l => (l, Event.on_transform_to_closed State.HalfOpen b.rule)) }
  else
    { ret := false, breaker := b, events := [] }

/-- The exit hook closure that `from_open_to_half_open` registers on the entry
captures a clone of the breaker's rule (and the shared state lock). -/
structure ExitHook where
  rule : Rule
deriving DecidableEq, Repr

/-- Result of `from_open_to_half_open`: the returned boolean, the breaker, the
fired callbacks, the exit hook registered on the entry (if any), and whether
the `Entry is None` error was logged. -/
structure HalfOpenResult where
  ret : Bool
  breaker : BreakerBase
  events : List (Nat × Event)
  hook : Option ExitHook
  logged_error : Bool
deriving DecidableEq, Repr

/-- `BreakerBase::from_open_to_half_open`: under the lock, if the state is
`Open`, set it to `HalfOpen` and notify every registered listener with
`on_transform_to_half_open(Open, rule)`.  Then, if the context has no entry,
log an error and register no hook; otherwise register the rollback exit hook
(capturing the rule and the state lock) on the entry.  Either way return
`true`.  If the state is not `Open`, do nothing and return `false`. -/
def from_open_to_half_open (listeners : List Nat) (ctx : EntryContext)
    (b : BreakerBase) : HalfOpenResult :=
  if b.state = State.Open then
    let b' : BreakerBase := { b with state := State.HalfOpen }
    let evs := listeners.map
      (fun l => (l, Event.on_transform_to_half_open State.Open b.rule))
    match ctx.entry with
    | none =>
      { ret := true, breaker := b', events := evs, hook := none, logged_error := true }
    | some _ =>
      { ret := true, breaker := b', events := evs
        hook := some { rule := b.rule }, logged_error := false }
  else
    { ret := false, breaker := b, events := [], hook := none, logged_error := false }

instance : DecidableEq (Except Unit Unit) := fun a b =>
  match a, b with
  | Except.ok (), Except.ok () => isTrue rfl
  | Except.error (), Except.error () => isTrue rfl
  | Except.ok (), Except.error () => isFalse (fun h => Except.noConfusion h)
  | Except.error (), Except.ok () => isFalse (fun h => Except.noConfusion h)

/-- Result of running the exit hook: the `Result<()>` it returns, the breaker
after the run, and the callbacks fired. -/
structure HookResult where
  ret : Except Unit Unit
  breaker : BreakerBase
  events : List (Nat × Event)
deriving DecidableEq, Repr

/-- Execution of the exit hook registered by `from_open_to_half_open`, at the
moment the probe entry exits.  Under the state lock: if the exiting context
reports `is_blocked()` and the state is still `HalfOpen`, set the state back to
`Open` and notify every registered listener with
`on_transform_to_open(HalfOpen, captured rule, Some(Arc::new(1.0)))`; in every
case return `Ok(())`.  The retry timestamp is not touched. -/
def exit_hook_run (listeners : List Nat) (h : ExitHook) (ctx : EntryContext)
    (b : BreakerBase) : HookResult :=
  if ctx.is_blocked = true ∧ b.state = State.HalfOpen then
    { ret := Except.ok ()
      breaker := { b with state := State.Open }
      events := listeners.map
        (fun l => (l, Event.on_transform_to_open State.HalfOpen h.rule (some sentinel_snapshot))) }
  else
    { ret := Except.ok (), breaker := b, events := [] }

/-- Modelled from the spec: `BreakerBase` values are constructed by the
strategy implementations (`error_count.rs` etc.), which are not in the
provided source; per the spec, a fresh breaker takes its state from the
`State` default and has no armed retry timestamp yet. -/
def new_breaker_base (rule : Rule) : BreakerBase :=
  { rule := rule
    retry_timeout_ms := rule.retry_timeout_ms
    next_retry_timestamp_ms := 0
    state := State.default }

/-- Result of `try_pass`: the admission boolean, the breaker, the callbacks
fired by a transition it attempted, and a registered hook, if any. -/
structure TryPassResult where
  ret : Bool
  breaker : BreakerBase
  events : List (Nat × Event)
  hook : Option ExitHook
deriving DecidableEq, Repr

/-- Modelled from the spec: `try_pass` lives in the strategy implementations,
which are not in the provided source; per the spec's section 4.2, `Closed`
always admits, `Open` denies unless the recovery timer has elapsed — in which
case the caller attempts `open→halfOpen` and its result is the permission —
and `HalfOpen` denies further admissions. -/
def try_pass (listeners : List Nat) (now : Nat) (ctx : EntryContext)
    (b : BreakerBase) : TryPassResult :=
  match current_state b with
  | State.Closed => { ret := true, breaker := b, events := [], hook := none }
  | State.Open =>
    if retry_timeout_arrived now b then
      let r := from_open_to_half_open listeners ctx b
      { ret := r.ret, breaker := r.breaker, events := r.events, hook := r.hook }
    else
      { ret := false, breaker := b, events := [], hook := none }
  | State.HalfOpen => { ret := false, breaker := b, events := [], hook := none }

/-- One invocation of a state-machine operation, with the arguments the caller
supplies at that moment (clock reading, snapshot, context, registered hook). -/
inductive Op where
  | closed_to_open (now : Nat) (snapshot : Snapshot)
  | open_to_half_open (ctx : EntryContext)
  | half_open_to_open (now : Nat) (snapshot : Snapshot)
  | half_open_to_closed
  | hook_run (h : ExitHook) (ctx : EntryContext)
deriving DecidableEq, Repr

/-- The breaker after one operation invocation. -/
def apply_op (listeners : List Nat) (b : BreakerBase) : Op → BreakerBase
  | Op.closed_to_open now s => (from_closed_to_open listeners now s b).breaker
  | Op.open_to_half_open ctx => (from_open_to_half_open listeners ctx b).breaker
  | Op.half_open_to_open now s => (from_half_open_to_open listeners now s b).breaker
  | Op.half_open_to_closed => (from_half_open_to_closed listeners b).breaker
  | Op.hook_run h ctx => (exit_hook_run listeners h ctx b).breaker

/-- The sequence of breaker values visited while executing a sequence of
operation invocations from a starting breaker (the start included). -/
def run_ops (listeners : List Nat) (b : BreakerBase) : List Op → List BreakerBase
  | [] => [b]
  | op :: ops => b :: run_ops listeners (apply_op listeners b op) ops

/-- The edges of the state graph in the module's header diagram:
`Closed→Open`, `Open→HalfOpen`, `HalfOpen→Open`, `HalfOpen→Closed`, plus
staying put. -/
def allowed_edge (s t : State) : Prop :=
  s = t ∨
  (s = State.Closed ∧ t = State.Open) ∨
  (s = State.Open ∧ t = State.HalfOpen) ∨
  (s = State.HalfOpen ∧ t = State.Open) ∨
  (s = State.HalfOpen ∧ t = State.Closed)

instance (s t : State) : Decidable (allowed_edge s t) := by
  unfold allowed_edge; infer_instance

/-- Concrete breaker in the closed state, with a 100 ms recovery timeout and no
armed retry timestamp, used to exercise the theorems on explicit inputs. -/
def b_closed : BreakerBase :=
  { rule := Rule.default, retry_timeout_ms := 100, next_retry_timestamp_ms := 0
    state := State.Closed }

/-- Concrete breaker in the open state. -/
def b_open : BreakerBase :=
  { rule := Rule.default, retry_timeout_ms := 100, next_retry_timestamp_ms := 1100
    state := State.Open }

/-- Concrete breaker in the half-open state, with a stale retry timestamp. -/
def b_half_open : BreakerBase :=
  { rule := Rule.default, retry_timeout_ms := 100, next_retry_timestamp_ms := 5
    state := State.HalfOpen }

/-- Concrete entry context carrying an entry and reporting a blocked call. -/
def ctx_entry : EntryContext := { entry := some (), is_blocked := true }

/-- Concrete entry context with no entry attached. -/
def ctx_no_entry : EntryContext := { entry := none, is_blocked := false }

/-- Concrete entry context carrying an entry, call not blocked. -/
def ctx_not_blocked : EntryContext := { entry := some (), is_blocked := false }

/-- Concrete exit hook capturing the default rule. -/
def hook0 : ExitHook := { rule := Rule.default }

/-- Every single operation invocation moves the state along an allowed edge or
leaves it unchanged. -/
theorem apply_op_allowed_edge (listeners : List Nat) (b : BreakerBase) (op : Op) :
    allowed_edge b.state (apply_op listeners b op).state := by
  cases op with
  | closed_to_open now s =>
    by_cases hb : b.state = State.Closed <;>
      simp [apply_op, from_closed_to_open, update_next_retry_timestamp, allowed_edge, hb]
  | open_to_half_open ctx =>
    by_cases hb : b.state = State.Open <;>
      cases hctx : ctx.entry <;>
        simp [apply_op, from_open_to_half_open, allowed_edge, hb, hctx]
  | half_open_to_open now s =>
    by_cases hb : b.state = State.HalfOpen <;>
      simp [apply_op, from_half_open_to_open, update_next_retry_timestamp, allowed_edge, hb]
  | half_open_to_closed =>
    by_cases hb : b.state = State.HalfOpen <;>
      simp [apply_op, from_half_open_to_closed, allowed_edge, hb]
  | hook_run h ctx =>
    by_cases hc : ctx.is_blocked = true ∧ b.state = State.HalfOpen <;>
      simp [apply_op, exit_hook_run, allowed_edge, hc]

/-- First element of the trace of breakers is the starting breaker. -/
theorem run_ops_head (listeners : List Nat) (b : BreakerBase) (ops : List Op) :
    (run_ops listeners b ops).head? = some b := by
  cases ops <;> simp [run_ops]

/-- C1: for every sequence of invocations of the four transition operations and
the registered exit hook, starting from any breaker, the state only ever
changes along the edges Closed→Open, Open→HalfOpen, HalfOpen→Open and
HalfOpen→Closed of the state graph: every pair of consecutive states in the
trace is either equal or one of those edges. -/
theorem c1_state_path_in_graph (listeners : List Nat) (b : BreakerBase) (ops : List Op) :
    List.Chain' allowed_edge ((run_ops listeners b ops).map (fun x => x.state)) := by
  induction ops generalizing b with
  | nil => simp [run_ops]
  | cons op ops ih =>
    rw [run_ops, List.map_cons, List.chain'_cons']
    refine ⟨?_, ih _⟩
    intro y hy
    simp only [List.head?_map, run_ops_head, Option.map_some', Option.mem_def,
      Option.some.injEq] at hy
    subst hy
    exact apply_op_allowed_edge listeners b op

/-- C2: each guarded transition returns true exactly when the current state is
its expected source state, in which case the state moves to the target;
otherwise it returns false and the whole result — breaker unchanged in every
field, no listener callback fired — is the no-op result. -/
theorem c2_guarded_transitions (listeners : List Nat) (now : Nat) (s : Snapshot)
    (ctx : EntryContext) (b : BreakerBase) :
    ((from_closed_to_open listeners now s b).ret = true ↔ b.state = State.Closed) ∧
    ((from_closed_to_open listeners now s b).ret = true →
      (from_closed_to_open listeners now s b).breaker.state = State.Open) ∧
    (b.state ≠ State.Closed →
      from_closed_to_open listeners now s b = ⟨false, b, []⟩) ∧
    ((from_open_to_half_open listeners ctx b).ret = true ↔ b.state = State.Open) ∧
    ((from_open_to_half_open listeners ctx b).ret = true →
      (from_open_to_half_open listeners ctx b).breaker.state = State.HalfOpen) ∧
    (b.state ≠ State.Open →
      from_open_to_half_open listeners ctx b = ⟨false, b, [], none, false⟩) ∧
    ((from_half_open_to_open listeners now s b).ret = true ↔ b.state = State.HalfOpen) ∧
    ((from_half_open_to_open listeners now s b).ret = true →
      (from_half_open_to_open listeners now s b).breaker.state = State.Open) ∧
    (b.state ≠ State.HalfOpen →
      from_half_open_to_open listeners now s b = ⟨false, b, []⟩) ∧
    ((from_half_open_to_closed listeners b).ret = true ↔ b.state = State.HalfOpen) ∧
    ((from_half_open_to_closed listeners b).ret = true →
      (from_half_open_to_closed listeners b).breaker.state = State.Closed) ∧
    (b.state ≠ State.HalfOpen →
      from_half_open_to_closed listeners b = ⟨false, b, []⟩) := by
  cases hctx : ctx.entry <;> cases hb : b.state <;>
    simp [from_closed_to_open, from_open_to_half_open, from_half_open_to_open,
      from_half_open_to_closed, update_next_retry_timestamp, hctx, hb]

/-- C2 witness: the conjunction instantiated at a concrete closed breaker. -/
theorem c2_guarded_transitions_witness :
    ((from_closed_to_open [0] 7 2 b_closed).ret = true ↔ b_closed.state = State.Closed) ∧
    ((from_closed_to_open [0] 7 2 b_closed).ret = true →
      (from_closed_to_open [0] 7 2 b_closed).breaker.state = State.Open) ∧
    (b_closed.state ≠ State.Closed →
      from_closed_to_open [0] 7 2 b_closed = ⟨false, b_closed, []⟩) ∧
    ((from_open_to_half_open [0] ctx_entry b_closed).ret = true ↔ b_closed.state = State.Open) ∧
    ((from_open_to_half_open [0] ctx_entry b_closed).ret = true →
      (from_open_to_half_open [0] ctx_entry b_closed).breaker.state = State.HalfOpen) ∧
    (b_closed.state ≠ State.Open →
      from_open_to_half_open [0] ctx_entry b_closed = ⟨false, b_closed, [], none, false⟩) ∧
    ((from_half_open_to_open [0] 7 2 b_closed).ret = true ↔ b_closed.state = State.HalfOpen) ∧
    ((from_half_open_to_open [0] 7 2 b_closed).ret = true →
      (from_half_open_to_open [0] 7 2 b_closed).breaker.state = State.Open) ∧
    (b_closed.state ≠ State.HalfOpen →
      from_half_open_to_open [0] 7 2 b_closed = ⟨false, b_closed, []⟩) ∧
    ((from_half_open_to_closed [0] b_closed).ret = true ↔ b_closed.state = State.HalfOpen) ∧
    ((from_half_open_to_closed [0] b_closed).ret = true →
      (from_half_open_to_closed [0] b_closed).breaker.state = State.Closed) ∧
    (b_closed.state ≠ State.HalfOpen →
      from_half_open_to_closed [0] b_closed = ⟨false, b_closed, []⟩) :=
  c2_guarded_transitions [0] 7 2 ctx_entry b_closed

/-- C3: when from_open_to_half_open succeeds from Open with an entry present,
it registers an exit hook capturing the breaker's rule; and when that hook
later runs on a context reporting a blocked call while the breaker is still
HalfOpen, it sets the state back to Open and notifies every registered
listener's on_transform_to_open callback with previous state HalfOpen, the
breaker's rule, and the fixed sentinel snapshot 1.0. -/
theorem c3_blocked_probe_rolls_back (listeners : List Nat) (ctx ctx2 : EntryContext)
    (b b2 : BreakerBase) (hb : b.state = State.Open) (he : ctx.entry = some ())
    (hblk : ctx2.is_blocked = true) (hb2 : b2.state = State.HalfOpen) :
    (from_open_to_half_open listeners ctx b).hook = some { rule := b.rule } ∧
    (exit_hook_run listeners { rule := b.rule } ctx2 b2).breaker.state = State.Open ∧
    (exit_hook_run listeners { rule := b.rule } ctx2 b2).events =
      listeners.map (fun l =>
        (l, Event.on_transform_to_open State.HalfOpen b.rule (some sentinel_snapshot))) := by
  refine ⟨?_, ?_, ?_⟩ <;> simp [from_open_to_half_open, exit_hook_run, hb, he, hblk, hb2]

/-- C3 witness: concrete open breaker, entry present, hook run on a blocked
context while half-open. -/
theorem c3_blocked_probe_rolls_back_witness :
    (from_open_to_half_open [0] ctx_entry b_open).hook = some { rule := b_open.rule } ∧
    (exit_hook_run [0] { rule := b_open.rule } ctx_entry b_half_open).breaker.state
        = State.Open ∧
    (exit_hook_run [0] { rule := b_open.rule } ctx_entry b_half_open).events =
      [0].map (fun l =>
        (l, Event.on_transform_to_open State.HalfOpen b_open.rule (some sentinel_snapshot))) :=
  c3_blocked_probe_rolls_back [0] ctx_entry ctx_entry b_open b_half_open rfl rfl rfl rfl

/-- C4 counterexample: the exit hook's rollback from HalfOpen to Open does not
call update_next_retry_timestamp.  On a concrete half-open breaker with a
stale retry timestamp of 5 ms and a 100 ms retry timeout, the hook moves the
state to Open yet leaves the timestamp at 5, and no time t whatsoever
satisfies the claimed equation timestamp = t + retry_timeout_ms. -/
theorem c4_retry_timestamp_counterexample :
    (exit_hook_run [0] hook0 ctx_entry b_half_open).breaker.state = State.Open ∧
    (exit_hook_run [0] hook0 ctx_entry b_half_open).breaker.next_retry_timestamp_ms = 5 ∧
    ¬ ∃ t : Nat,
      (exit_hook_run [0] hook0 ctx_entry b_half_open).breaker.next_retry_timestamp_ms
        = t + (exit_hook_run [0] hook0 ctx_entry b_half_open).breaker.retry_timeout_ms := by
  refine ⟨by decide, by decide, ?_⟩
  rintro ⟨t, ht⟩
  have h5 : (exit_hook_run [0] hook0 ctx_entry b_half_open).breaker.next_retry_timestamp_ms
      = 5 := by decide
  have h100 : (exit_hook_run [0] hook0 ctx_entry b_half_open).breaker.retry_timeout_ms
      = 100 := by decide
  rw [h5, h100] at ht
  omega

/-- C4 (amended): from_closed_to_open and from_half_open_to_open call
update_next_retry_timestamp, so immediately after either of those transitions
into Open at time t the next-retry timestamp equals t + retry_timeout_ms; the
exit hook's rollback from HalfOpen to Open, however, leaves the next-retry
timestamp unchanged. -/
theorem c4_retry_timestamp_amended (listeners : List Nat) (now : Nat) (s : Snapshot)
    (h : ExitHook) (ctx : EntryContext) (bc bh b : BreakerBase)
    (hc : bc.state = State.Closed) (hh : bh.state = State.HalfOpen) :
    (from_closed_to_open listeners now s bc).breaker.next_retry_timestamp_ms
        = now + bc.retry_timeout_ms ∧
    (from_half_open_to_open listeners now s bh).breaker.next_retry_timestamp_ms
        = now + bh.retry_timeout_ms ∧
    (exit_hook_run listeners h ctx b).breaker.next_retry_timestamp_ms
        = b.next_retry_timestamp_ms := by
  refine ⟨?_, ?_, ?_⟩
  · simp [from_closed_to_open, update_next_retry_timestamp, hc]
  · simp [from_half_open_to_open, update_next_retry_timestamp, hh]
  · by_cases hcb : ctx.is_blocked = true ∧ b.state = State.HalfOpen <;>
      simp [exit_hook_run, hcb]

/-- C4 (amended) witness: concrete breakers at time 1000 with timeout 100. -/
theorem c4_retry_timestamp_amended_witness :
    (from_closed_to_open [0] 1000 2 b_closed).breaker.next_retry_timestamp_ms
        = 1000 + b_closed.retry_timeout_ms ∧
    (from_half_open_to_open [0] 1000 2 b_half_open).breaker.next_retry_timestamp_ms
        = 1000 + b_half_open.retry_timeout_ms ∧
    (exit_hook_run [0] hook0 ctx_entry b_half_open).breaker.next_retry_timestamp_ms
        = b_half_open.next_retry_timestamp_ms :=
  c4_retry_timestamp_amended [0] 1000 2 hook0 ctx_entry b_closed b_half_open b_half_open
    rfl rfl

/-- C5: from the Closed state, from_closed_to_open returns true, sets the state
to Open, arms the next-retry timestamp to now + retry_timeout_ms, leaves the
rule and timeout fields as they were, and notifies every registered listener
exactly once, in registration order, with on_transform_to_open(Closed, rule,
Some(snapshot)). -/
theorem c5_closed_to_open (listeners : List Nat) (now : Nat) (snap : Snapshot)
    (b : BreakerBase) (hb : b.state = State.Closed) :
    (from_closed_to_open listeners now snap b).ret = true ∧
    (from_closed_to_open listeners now snap b).breaker.state = State.Open ∧
    (from_closed_to_open listeners now snap b).breaker.next_retry_timestamp_ms
        = now + b.retry_timeout_ms ∧
    (from_closed_to_open listeners now snap b).breaker.rule = b.rule ∧
    (from_closed_to_open listeners now snap b).breaker.retry_timeout_ms
        = b.retry_timeout_ms ∧
    (from_closed_to_open listeners now snap b).events
        = listeners.map (fun l =>
            (l, Event.on_transform_to_open State.Closed b.rule (some snap))) := by
  refine ⟨?_, ?_, ?_, ?_, ?_, ?_⟩ <;>
    simp [from_closed_to_open, update_next_retry_timestamp, hb]

/-- C5 witness: concrete closed breaker tripped at time 1000 with two
registered listeners. -/
theorem c5_closed_to_open_witness :
    (from_closed_to_open [0, 1] 1000 2 b_closed).ret = true ∧
    (from_closed_to_open [0, 1] 1000 2 b_closed).breaker.state = State.Open ∧
    (from_closed_to_open [0, 1] 1000 2 b_closed).breaker.next_retry_timestamp_ms
        = 1000 + b_closed.retry_timeout_ms ∧
    (from_closed_to_open [0, 1] 1000 2 b_closed).breaker.rule = b_closed.rule ∧
    (from_closed_to_open [0, 1] 1000 2 b_closed).breaker.retry_timeout_ms
        = b_closed.retry_timeout_ms ∧
    (from_closed_to_open [0, 1] 1000 2 b_closed).events
        = [0, 1].map (fun l =>
            (l, Event.on_transform_to_open State.Closed b_closed.rule (some 2))) :=
  c5_closed_to_open [0, 1] 1000 2 b_closed rfl

/-- C6: after a transition into Open performed at time t (via
from_closed_to_open or from_half_open_to_open), retry_timeout_arrived is false
at every time strictly before t + retry_timeout_ms and true at every time at
or after it; consequently try_pass denies (leaving the breaker untouched)
while now < t + retry_timeout_ms, and once now ≥ t + retry_timeout_ms the next
caller wins the open→halfOpen transition. -/
theorem c6_recovery_timing (listeners : List Nat) (t : Nat) (snap : Snapshot)
    (ctx : EntryContext) (b b' : BreakerBase)
    (hb' : (b.state = State.Closed ∧ b' = (from_closed_to_open listeners t snap b).breaker) ∨
           (b.state = State.HalfOpen ∧ b' = (from_half_open_to_open listeners t snap b).breaker)) :
    (∀ now, retry_timeout_arrived now b' = true ↔ t + b.retry_timeout_ms ≤ now) ∧
    (∀ now, now < t + b.retry_timeout_ms →
        (try_pass listeners now ctx b').ret = false ∧
        (try_pass listeners now ctx b').breaker = b') ∧
    (∀ now, t + b.retry_timeout_ms ≤ now →
        (try_pass listeners now ctx b').ret = true ∧
        (try_pass listeners now ctx b').breaker.state = State.HalfOpen) := by
  have hfields : b'.state = State.Open ∧
      b'.next_retry_timestamp_ms = t + b.retry_timeout_ms := by
    rcases hb' with ⟨hs, rfl⟩ | ⟨hs, rfl⟩ <;>
      simp [from_closed_to_open, from_half_open_to_open, update_next_retry_timestamp, hs]
  obtain ⟨hso, hsn⟩ := hfields
  refine ⟨?_, ?_, ?_⟩
  · intro now
    simp [retry_timeout_arrived, hsn]
  · intro now hlt
    have harr : retry_timeout_arrived now b' = false := by
      simp [retry_timeout_arrived, hsn]
      omega
    constructor <;> simp [try_pass, current_state, hso, harr]
  · intro now hge
    have harr : retry_timeout_arrived now b' = true := by
      simp [retry_timeout_arrived, hsn, hge]
    cases hctx : ctx.entry <;>
      constructor <;>
        simp [try_pass, current_state, hso, harr, from_open_to_half_open, hctx]

/-- C6 witness: a breaker tripped at time 1000 with a 100 ms timeout denies at
time 1099 and admits (winning the half-open transition) at time 1100. -/
theorem c6_recovery_timing_witness :
    (retry_timeout_arrived 1099 (from_closed_to_open [0] 1000 2 b_closed).breaker = true
        ↔ 1000 + b_closed.retry_timeout_ms ≤ 1099) ∧
    (try_pass [0] 1099 ctx_entry (from_closed_to_open [0] 1000 2 b_closed).breaker).ret
        = false ∧
    (try_pass [0] 1100 ctx_entry (from_closed_to_open [0] 1000 2 b_closed).breaker).ret
        = true ∧
    (try_pass [0] 1100 ctx_entry
        (from_closed_to_open [0] 1000 2 b_closed).breaker).breaker.state = State.HalfOpen :=
  have h := c6_recovery_timing [0] 1000 2 ctx_entry b_closed
    (from_closed_to_open [0] 1000 2 b_closed).breaker (Or.inl ⟨rfl, rfl⟩)
  ⟨h.1 1099, (h.2.1 1099 (by decide)).1, (h.2.2 1100 (by decide)).1,
    (h.2.2 1100 (by decide)).2⟩

/-- C7: calling from_open_to_half_open in state Open with a context whose entry
is absent still performs the transition — state becomes HalfOpen, every
listener is notified of the half-open transition, the call returns true — but
the entry-is-none error is logged and no rollback hook is registered. -/
theorem c7_no_entry_defensive_degrade (listeners : List Nat) (ctx : EntryContext)
    (b : BreakerBase) (hb : b.state = State.Open) (he : ctx.entry = none) :
    (from_open_to_half_open listeners ctx b).ret = true ∧
    (from_open_to_half_open listeners ctx b).breaker.state = State.HalfOpen ∧
    (from_open_to_half_open listeners ctx b).events
        = listeners.map (fun l => (l, Event.on_transform_to_half_open State.Open b.rule)) ∧
    (from_open_to_half_open listeners ctx b).hook = none ∧
    (from_open_to_half_open listeners ctx b).logged_error = true := by
  refine ⟨?_, ?_, ?_, ?_, ?_⟩ <;> simp [from_open_to_half_open, hb, he]

/-- C7 witness: concrete open breaker and a context with no entry. -/
theorem c7_no_entry_defensive_degrade_witness :
    (from_open_to_half_open [0] ctx_no_entry b_open).ret = true ∧
    (from_open_to_half_open [0] ctx_no_entry b_open).breaker.state = State.HalfOpen ∧
    (from_open_to_half_open [0] ctx_no_entry b_open).events
        = [0].map (fun l => (l, Event.on_transform_to_half_open State.Open b_open.rule)) ∧
    (from_open_to_half_open [0] ctx_no_entry b_open).hook = none ∧
    (from_open_to_half_open [0] ctx_no_entry b_open).logged_error = true :=
  c7_no_entry_defensive_degrade [0] ctx_no_entry b_open rfl rfl

/-- C8: the default value of the State type is Closed, and a freshly
constructed breaker reports current_state() = Closed. -/
theorem c8_initial_state_closed (r : Rule) :
    State.default = State.Closed ∧ current_state (new_breaker_base r) = State.Closed :=
  ⟨rfl, rfl⟩

/-- C9: the exit hook is a no-op whenever the exiting call was not blocked or
the breaker is no longer HalfOpen: it leaves every breaker field unchanged,
fires no listener callback, and returns Ok. -/
theorem c9_hook_frame (listeners : List Nat) (h : ExitHook) (ctx : EntryContext)
    (b : BreakerBase) (hno : ¬(ctx.is_blocked = true ∧ b.state = State.HalfOpen)) :
    exit_hook_run listeners h ctx b = { ret := Except.ok (), breaker := b, events := [] } := by
  simp [exit_hook_run, hno]

/-- C9 witness: hook run on an unblocked context while half-open is a no-op. -/
theorem c9_hook_frame_witness :
    exit_hook_run [0] hook0 ctx_not_blocked b_half_open
      = { ret := Except.ok (), breaker := b_half_open, events := [] } :=
  c9_hook_frame [0] hook0 ctx_not_blocked b_half_open (by decide)

/-- C10: the default value of BreakerStrategy is SlowRequestRatio, and a rule
constructed without an explicit strategy selector takes that default. -/
theorem c10_default_strategy :
    BreakerStrategy.default = BreakerStrategy.SlowRequestRatio ∧
    Rule.default.strategy = BreakerStrategy.SlowRequestRatio :=
  ⟨rfl, rfl⟩
